import Mathlib

/-!
Verification of the analog watchface renderer in
`src/src/c/simple-watchface.c` (Pebble SDK, 12-marker variant).

The C program is a single per-frame draw routine.  We embed it shallowly:

* C `int` arithmetic becomes `Int` (values stay far below 2^31, so no
  wrapping is modelled); C integer division truncates toward zero, which is
  `Int.tdiv`.
* The host SDK's fixed-point trigonometric lookup (`sin_lookup`,
  `cos_lookup`, `TRIG_MAX_ANGLE = 0x10000`, `TRIG_MAX_RATIO = 0xffff`) is
  not part of the repository; it is modelled below (`sin_lookup`) by an
  integer Bhaskara-I approximation that is exact at the quadrant angles,
  matching the SDK contract (sine scaled to `TRIG_MAX_RATIO`).
* Drawing-context calls become constructors of a `DrawEvent` list; a frame
  is the list of events it emits, in order.
* The float expressions of the source (`0.5f`, `0.75f`, `0.85f`,
  `1 - 0.01f`) are evaluated exactly: for the argument ranges that occur
  (screen dimensions, at most a few hundred), the C cast-to-int of the
  float product equals the integer division written here; the comment at
  each definition records the correspondence.
-/

namespace SimpleWatchface

/-- TRIG_MAX_ANGLE of the Pebble SDK: one full turn in trig angle units. -/
def TRIG_MAX_ANGLE : Int := 65536

/-- TRIG_MAX_RATIO of the Pebble SDK (0xffff): the fixed-point scale of
`sin_lookup` / `cos_lookup` results. -/
def TRIG_SCALE : Int := 65535

/-- Modelled from the spec: the host's lookup-table-based fixed-point sine
(spec section 6 and glossary: "the host's fixed-point representation of angle,
scaled from degrees for lookup-table-based sine/cosine"); only its callers are
in `src/`.  Half-wave on `0 ≤ a ≤ 32768` (half a turn), via the integer
Bhaskara-I approximation, exact at `a = 0`, `a = 16384` (quarter turn, value
`TRIG_SCALE`) and `a = 32768`. -/
def sinHalf (a : Int) : Int :=
  let p := a * (32768 - a)
  (65535 * 16 * p) / (5368709120 - 4 * p)

/-- Modelled from the spec: the SDK's `sin_lookup`, total on all angles by
wrapping modulo a full turn and odd symmetry on the second half-turn. -/
def sin_lookup (angle : Int) : Int :=
  let a := angle % 65536
  if a ≤ 32768 then sinHalf a else -(sinHalf (a - 32768))

/-- Modelled from the spec: the SDK's `cos_lookup`, a quarter-turn phase
shift of `sin_lookup`. -/
def cos_lookup (angle : Int) : Int :=
  sin_lookup (angle + 16384)

/-- Embedding of `degrees_to_trig_angle` (simple-watchface.c:52-54):
`TRIG_MAX_ANGLE * degrees / 360` in C `int32_t` arithmetic. -/
def degrees_to_trig_angle (degrees : Int) : Int :=
  Int.tdiv (TRIG_MAX_ANGLE * degrees) 360

/-- The SDK's `GPoint`: a screen point. -/
structure GPoint where
  x : Int
  y : Int
deriving DecidableEq, Repr

/-- The SDK's `GRect`, flattened: origin `(x, y)` and size `(w, h)`. -/
structure GRect where
  x : Int
  y : Int
  w : Int
  h : Int
deriving DecidableEq, Repr

/-- The global geometry state of the program (simple-watchface.c:40-43):
`s_center`, `s_radius`, `s_w_radius`, `s_h_radius`. -/
structure Geometry where
  center : GPoint
  radius : Int
  w_radius : Int
  h_radius : Int
deriving DecidableEq, Repr

/-- The colors the program uses (`GColorWhite`, `GColorRed`). -/
inductive Color where
  | white
  | red
deriving DecidableEq, Repr

/-- One drawing-context call issued during a frame, in the order of the
arguments of the corresponding SDK call.  `line` carries the stroke width
and color set just before `graphics_draw_line`; `roundRect` the corner
radius and stroke width; `text` the string and the anchor point it is
centered on (the centering offset itself depends on host font metrics and
is not modelled); `dot` a filled circle. -/
inductive DrawEvent where
  | line (p q : GPoint) (width : Int) (color : Color)
  | roundRect (r : GRect) (cornerRadius strokeWidth : Int)
  | text (s : String) (anchor : GPoint)
  | dot (center : GPoint) (radius : Int)
deriving DecidableEq, Repr

/-- Embedding of `get_point_on_circle` (simple-watchface.c:59-64), with the global
`s_center` made an explicit argument:
`x = cx + sin_lookup(angle) * d / TRIG_MAX_RATIO`,
`y = cy - cos_lookup(angle) * d / TRIG_MAX_RATIO` (C division truncates
toward zero, hence `Int.tdiv`). -/
def get_point_on_circle (center : GPoint) (angle : Int)
    (distance_from_center : Int) : GPoint :=
  { x := center.x + Int.tdiv (sin_lookup angle * distance_from_center) TRIG_SCALE
    y := center.y - Int.tdiv (cos_lookup angle * distance_from_center) TRIG_SCALE }

/-- Embedding of `get_point_on_ellipse` (simple-watchface.c:69-74), with the global
`s_center` made an explicit argument: the two axes are scaled
independently by `w_radius` and `h_radius`. -/
def get_point_on_ellipse (center : GPoint) (angle : Int)
    (w_radius h_radius : Int) : GPoint :=
  { x := center.x + Int.tdiv (sin_lookup angle * w_radius) TRIG_SCALE
    y := center.y - Int.tdiv (cos_lookup angle * h_radius) TRIG_SCALE }

/-- Embedding of `is_major_marker` (simple-watchface.c:79-81):
`hour_index % MAJOR_MARKER_INTERVAL == 0` with `MAJOR_MARKER_INTERVAL = 3`. -/
def is_major_marker (hour_index : Nat) : Bool :=
  hour_index % 3 == 0

/-- Embedding of `get_display_hour` (simple-watchface.c:86-88):
`(hour_index == 0) ? 12 : hour_index`. -/
def get_display_hour (hour_index : Nat) : Nat :=
  if hour_index = 0 then 12 else hour_index

/-- Embedding of `draw_clock_face` (simple-watchface.c:97-108): one rounded rectangle
centered on the face, corner radius `CLOCK_FACE_CORNER_RADIUS = 7`,
stroke width `CLOCK_FACE_STROKE_WIDTH = 2`. -/
def draw_clock_face (g : Geometry) : DrawEvent :=
  .roundRect
    { x := g.center.x - g.w_radius
      y := g.center.y - g.h_radius
      w := 2 * g.w_radius
      h := 2 * g.h_radius } 7 2

/-- The marker angle of `draw_hour_marker` (simple-watchface.c:114):
`hour_index * DEGREES_PER_HOUR` with `DEGREES_PER_HOUR = 30`. -/
def marker_angle_degrees (hour_index : Nat) : Nat :=
  hour_index * 30

/-- The marker length of `draw_hour_marker` (simple-watchface.c:118):
`MAJOR_MARKER_LENGTH = 15` for major markers, `MINOR_MARKER_LENGTH = 8`
otherwise. -/
def marker_length (hour_index : Nat) : Int :=
  if is_major_marker hour_index then 15 else 8

/-- The marker stroke width of `draw_hour_marker` (simple-watchface.c:119):
`MAJOR_MARKER_WIDTH = 3` for major markers, `MINOR_MARKER_WIDTH = 1`
otherwise. -/
def marker_width (hour_index : Nat) : Int :=
  if is_major_marker hour_index then 3 else 1

/-- The outer endpoint of marker `hour_index` (simple-watchface.c:121):
on the ellipse of radii `(s_w_radius, s_h_radius)`. -/
def marker_outer (g : Geometry) (hour_index : Nat) : GPoint :=
  get_point_on_ellipse g.center
    (degrees_to_trig_angle (marker_angle_degrees hour_index))
    g.w_radius g.h_radius

/-- The inner endpoint of marker `hour_index` (simple-watchface.c:122):
on the ellipse of radii shrunk by the marker length. -/
def marker_inner (g : Geometry) (hour_index : Nat) : GPoint :=
  get_point_on_ellipse g.center
    (degrees_to_trig_angle (marker_angle_degrees hour_index))
    (g.w_radius - marker_length hour_index)
    (g.h_radius - marker_length hour_index)

/-- Embedding of `draw_hour_marker` (simple-watchface.c:113-127): one white line from the
outer to the inner endpoint, at the marker's width. -/
def draw_hour_marker (g : Geometry) (hour_index : Nat) : DrawEvent :=
  .line (marker_outer g hour_index) (marker_inner g hour_index)
    (marker_width hour_index) .white

/-- The numeral string of `draw_hour_number` (simple-watchface.c:144-145):
`snprintf(number_buffer, 3, "%d", get_display_hour(hour_index))` writes at
most 2 characters of the decimal representation into the 3-byte buffer
(the third byte is the terminator), hence `String.take 2`. -/
def number_buffer (hour_index : Nat) : String :=
  (Nat.repr (get_display_hour hour_index)).take 2

/-- The anchor point of `draw_hour_number` (simple-watchface.c:140-141):
on the circle of radius `s_radius - MAJOR_MARKER_LENGTH -
NUMBER_OFFSET_FROM_MARKER` = `s_radius - 15 - 10`. -/
def number_pos (g : Geometry) (hour_index : Nat) : GPoint :=
  get_point_on_circle g.center
    (degrees_to_trig_angle (marker_angle_degrees hour_index))
    (g.radius - 15 - 10)

/-- Embedding of `draw_hour_number` (simple-watchface.c:132-175): returns early with no
draw call unless the marker is major; otherwise draws the numeral text
centered on its anchor point. -/
def draw_hour_number (g : Geometry) (hour_index : Nat) : List DrawEvent :=
  if is_major_marker hour_index then
    [.text (number_buffer hour_index) (number_pos g hour_index)]
  else
    []

/-- Embedding of `draw_hour_markers` (simple-watchface.c:180-185): for `i` from 0 to 11,
draw marker `i` then its numeral (if any). -/
def draw_hour_markers (g : Geometry) : List DrawEvent :=
  (List.range 12).flatMap fun i =>
    draw_hour_marker g i :: draw_hour_number g i

/-- The fields of `struct tm` the program reads (simple-watchface.c:203-206):
`tm_hour`, `tm_min`, `tm_sec`. -/
structure Tm where
  tm_hour : Nat
  tm_min : Nat
  tm_sec : Nat
deriving DecidableEq, Repr

/-- Embedding of `hour_degrees` of `draw_clock_hands` (simple-watchface.c:203-204):
`(tm_hour % 12) * DEGREES_PER_HOUR + (int)(tm_min *
DEGREES_PER_MINUTE_FOR_HOUR_HAND)` with `DEGREES_PER_HOUR = 30` and
`DEGREES_PER_MINUTE_FOR_HOUR_HAND = 0.5f`.  `tm_min * 0.5f` is exact in
float for `tm_min ≤ 59` and the cast truncates, so the minute term is
`tm_min / 2` in natural-number division. -/
def hour_degrees (t : Tm) : Nat :=
  (t.tm_hour % 12) * 30 + t.tm_min / 2

/-- Embedding of `minute_degrees` of `draw_clock_hands` (simple-watchface.c:205):
`tm_min * DEGREES_PER_MINUTE` with `DEGREES_PER_MINUTE = 6`. -/
def minute_degrees (t : Tm) : Nat :=
  t.tm_min * 6

/-- Embedding of `second_degrees` of `draw_clock_hands` (simple-watchface.c:206):
`tm_sec * DEGREES_PER_SECOND` with `DEGREES_PER_SECOND = 6`. -/
def second_degrees (t : Tm) : Nat :=
  t.tm_sec * 6

/-- The hour-hand length (simple-watchface.c:191 with
`HOUR_HAND_LENGTH_RATIO = 0.5f`): `(int)(s_radius * 0.5f)`.  The product
is exact in float and the cast truncates toward zero, hence `Int.tdiv`. -/
def hour_hand_length (radius : Int) : Int :=
  Int.tdiv radius 2

/-- The minute-hand length (simple-watchface.c:191 with
`MINUTE_HAND_LENGTH_RATIO = 0.75f`): `(int)(s_radius * 0.75f)`.  The
product is exact in float for screen-sized radii and the cast truncates. -/
def minute_hand_length (radius : Int) : Int :=
  Int.tdiv (radius * 3) 4

/-- The second-hand length (simple-watchface.c:191 with
`SECOND_HAND_LENGTH_RATIO = 0.85f`): `(int)(s_radius * 0.85f)`.  For
`0 ≤ radius ≤ 10^4` (far beyond any screen) the truncated float product
equals `⌊radius * 17 / 20⌋`. -/
def second_hand_length (radius : Int) : Int :=
  Int.tdiv (radius * 17) 20

/-- Embedding of `draw_hand` (simple-watchface.c:190-196): one line from the center to
the point at `length` along `angle`, at the given width and color. -/
def draw_hand (g : Geometry) (angle : Int) (length width : Int)
    (color : Color) : DrawEvent :=
  .line g.center (get_point_on_circle g.center angle length) width color

/-- Embedding of `draw_clock_hands` (simple-watchface.c:201-220): the three hand angles
are derived from the single `struct tm` argument, the hands are drawn
back to front (hour width 5 white, minute width 3 white, second width 1
red), then the filled center dot of radius `CENTER_DOT_RADIUS = 5`. -/
def draw_clock_hands (g : Geometry) (t : Tm) : List DrawEvent :=
  [ draw_hand g (degrees_to_trig_angle (hour_degrees t))
      (hour_hand_length g.radius) 5 .white
  , draw_hand g (degrees_to_trig_angle (minute_degrees t))
      (minute_hand_length g.radius) 3 .white
  , draw_hand g (degrees_to_trig_angle (second_degrees t))
      (second_hand_length g.radius) 1 .red
  , .dot g.center 5 ]

/-- Embedding of `calculate_dimensions` (simple-watchface.c:225-232): center is
`grect_center_point` (origin plus half the size, C integer division);
the axis radii are `(int)(size/2 * (1 - CLOCK_FACE_BORDER_PERCENT))` with
`CLOCK_FACE_BORDER_PERCENT = 0.01f` — for the nonnegative screen-sized
values that occur the truncated float product equals
`(size/2) * 99 / 100` — and `s_radius` is the smaller axis radius. -/
def calculate_dimensions (bounds : GRect) : Geometry :=
  let w_radius := Int.tdiv (Int.tdiv bounds.w 2 * 99) 100
  let h_radius := Int.tdiv (Int.tdiv bounds.h 2 * 99) 100
  { center := { x := bounds.x + Int.tdiv bounds.w 2
                y := bounds.y + Int.tdiv bounds.h 2 }
    radius := if w_radius < h_radius then w_radius else h_radius
    w_radius := w_radius
    h_radius := h_radius }

/-- Embedding of `update_proc` (simple-watchface.c:241-252), the per-frame routine.  It
takes the stale global geometry (the C globals persist between frames) and
returns the geometry after the frame together with the emitted draw calls:
recompute dimensions from the current bounds, draw the face outline, draw
the twelve markers and their numerals, sample the time once (`time` /
`localtime`, simple-watchface.c:249-250, modelled as the single `t`
argument) and draw the three hands and the center dot from it. -/
def update_proc (stale : Geometry) (bounds : GRect) (t : Tm) :
    Geometry × List DrawEvent :=
  let g := calculate_dimensions bounds
  (g, draw_clock_face g :: (draw_hour_markers g ++ draw_clock_hands g t))

/-- Modelled from the spec: the rectangular placement policy of section 4.1
("scale distance to intersect the bounding rectangle edge, choosing the axis
whose scale factor is smaller — scale = w/|sin θ| unless h/|cos θ| is
smaller"), which the spec says is used on rectangular displays; no such
code exists in `src/`.  In the fixed-point arithmetic of the program,
`w / |sin θ|` becomes `w * TRIG_SCALE / |sin_lookup θ|`. -/
def rect_policy_point (center : GPoint) (angle : Int) (w h : Int) : GPoint :=
  let s := |sin_lookup angle|
  let c := |cos_lookup angle|
  let dw := Int.tdiv (w * TRIG_SCALE) s
  let dh := Int.tdiv (h * TRIG_SCALE) c
  let d := min dw dh
  { x := center.x + Int.tdiv (sin_lookup angle * d) TRIG_SCALE
    y := center.y - Int.tdiv (cos_lookup angle * d) TRIG_SCALE }

/-- The border inset of the spec (section 4.1, "half the bounds dimensions
minus a border inset"): what `calculate_dimensions` subtracts from a half
dimension, namely 1 percent of it rounded up. -/
def border_inset (half : Int) : Int :=
  (half + 99) / 100

/-- C1 (counterexample): the spec's hour-angle formula
`(hour mod 12) × 30 + minute × 0.5` fails on the code.  At 10:09:30 the
code computes 304, not 304.5, and across 2:59 → 3:00 the hour angle
changes by 1, not 0.5: the cast `(int)(tm_min * 0.5f)` truncates the
minute term to a whole degree. -/
theorem hour_angle_half_degree_refuted :
    ((hour_degrees ⟨10, 9, 30⟩ : ℚ) ≠ ((10 % 12 : ℕ) : ℚ) * 30 + 9 * (1 / 2)) ∧
    ((hour_degrees ⟨3, 0, 0⟩ : ℚ) - (hour_degrees ⟨2, 59, 0⟩ : ℚ) ≠ 1 / 2) := by
  constructor <;> norm_num [hour_degrees]

/-- C1 (amended): for every time, the hour-hand angle in degrees is the
floor of `(hour mod 12) × 30 + minute × 0.5`; in particular at 10:09 it is
304°, and between 2:59 and 3:00 it changes by exactly 1°, not 30° — the
hour hand still creeps across the hour boundary, in whole-degree steps. -/
theorem hour_angle_floored (t : Tm) :
    ((hour_degrees t : ℤ) =
      ⌊((t.tm_hour % 12 : ℕ) : ℚ) * 30 + (t.tm_min : ℚ) * (1 / 2)⌋) ∧
    hour_degrees ⟨10, 9, 30⟩ = 304 ∧
    hour_degrees ⟨3, 0, 0⟩ = hour_degrees ⟨2, 59, 0⟩ + 1 := by
  refine ⟨?_, by decide, by decide⟩
  have hm : (t.tm_min : ℚ) * (1 / 2) = ((t.tm_min : ℕ) : ℚ) / ((2 : ℕ) : ℚ) := by
    push_cast; ring
  have hh : ((t.tm_hour % 12 : ℕ) : ℚ) * 30 = (((t.tm_hour % 12) * 30 : ℕ) : ℚ) := by
    push_cast; ring
  rw [hm, hh, Int.floor_nat_add, Rat.floor_natCast_div_natCast]
  unfold hour_degrees
  push_cast
  ring

/-- C2: for every valid time, the minute-hand angle is `minute × 6°` and the
second-hand angle is `second × 6°`, both below 360°; minute 59 gives 354°,
minute 0 gives 0°, and at 10:09:30 the minute angle is 54° and the second
angle is 180°. -/
theorem minute_second_hand_angles (t : Tm) (hm : t.tm_min < 60)
    (hs : t.tm_sec < 60) :
    minute_degrees t = t.tm_min * 6 ∧ second_degrees t = t.tm_sec * 6 ∧
    minute_degrees t < 360 ∧ second_degrees t < 360 ∧
    minute_degrees ⟨0, 59, 0⟩ = 354 ∧ minute_degrees ⟨0, 0, 0⟩ = 0 ∧
    minute_degrees ⟨10, 9, 30⟩ = 54 ∧ second_degrees ⟨10, 9, 30⟩ = 180 := by
  refine ⟨rfl, rfl, ?_, ?_, by decide, by decide, by decide, by decide⟩ <;>
    (simp only [minute_degrees, second_degrees]; omega)

/-- C2 witness at 10:09:30. -/
theorem minute_second_hand_angles_witness :
    (9 : Nat) < 60 ∧ (30 : Nat) < 60 ∧ minute_degrees ⟨10, 9, 30⟩ = 9 * 6 :=
  ⟨by decide, by decide,
    (minute_second_hand_angles ⟨10, 9, 30⟩ (by decide) (by decide)).1⟩

/-- C3: for every marker index below 12, the marker angle is
`i × (360 / 12)` degrees, and the displayed numeral is the 1-based clock
hour: it lies in 1..12 and is congruent to the index modulo 12, so index 0
maps to display value 12. -/
theorem marker_angles_and_numerals (i : Nat) (hi : i < 12) :
    marker_angle_degrees i = i * (360 / 12) ∧
    1 ≤ get_display_hour i ∧ get_display_hour i ≤ 12 ∧
    get_display_hour i % 12 = i := by
  unfold marker_angle_degrees get_display_hour
  split <;> omega

/-- C3 witness at index 0. -/
theorem marker_angles_and_numerals_witness :
    (0 : Nat) < 12 ∧ get_display_hour 0 % 12 = 0 :=
  ⟨by decide, (marker_angles_and_numerals 0 (by decide)).2.2.2⟩

/-- C4: for every marker index below 12, the marker is major exactly when
the index is divisible by 3; major markers have length 15 and width 3,
minor ones length 8 and width 1; and `draw_hour_number` emits the numeral
text exactly for major markers, nothing otherwise. -/
theorem major_minor_markers (g : Geometry) (i : Nat) (hi : i < 12) :
    (is_major_marker i = true ↔ i % 3 = 0) ∧
    marker_length i = (if i % 3 = 0 then 15 else 8) ∧
    marker_width i = (if i % 3 = 0 then 3 else 1) ∧
    (is_major_marker i = true →
      draw_hour_number g i = [.text (number_buffer i) (number_pos g i)]) ∧
    (is_major_marker i = false → draw_hour_number g i = []) := by
  by_cases h : i % 3 = 0 <;>
    simp [is_major_marker, marker_length, marker_width, draw_hour_number, h]

/-- C4 witness at index 1 (a minor marker) of the 144×168 geometry. -/
theorem major_minor_markers_witness :
    (1 : Nat) < 12 ∧ marker_length 1 = (if 1 % 3 = 0 then 15 else 8) :=
  ⟨by decide,
    (major_minor_markers (calculate_dimensions ⟨0, 0, 144, 168⟩) 1
      (by decide)).2.1⟩

/-- C5: for every center and radii, elliptical placement at 0° (after
conversion to the fixed-point trig unit) is exactly `(cx, cy - h_radius)`,
and at 90° exactly `(cx + w_radius, cy)`, in the integer fixed-point
lookup arithmetic. -/
theorem ellipse_quadrant_points (c : GPoint) (w h : Int) :
    get_point_on_ellipse c (degrees_to_trig_angle 0) w h =
      ⟨c.x, c.y - h⟩ ∧
    get_point_on_ellipse c (degrees_to_trig_angle 90) w h =
      ⟨c.x + w, c.y⟩ := by
  have h0 : degrees_to_trig_angle 0 = 0 := by decide
  have h90 : degrees_to_trig_angle 90 = 16384 := by decide
  have hs0 : sin_lookup 0 = 0 := by decide
  have hc0 : cos_lookup 0 = 65535 := by decide
  have hs90 : sin_lookup 16384 = 65535 := by decide
  have hc90 : cos_lookup 16384 = 0 := by decide
  have hw : Int.tdiv (65535 * w) 65535 = w :=
    Int.mul_tdiv_cancel_left w (by decide)
  have hh : Int.tdiv (65535 * h) 65535 = h :=
    Int.mul_tdiv_cancel_left h (by decide)
  unfold get_point_on_ellipse TRIG_SCALE
  rw [h0, h90, hs0, hc0, hs90, hc90]
  constructor <;>
    simp [GPoint.mk.injEq, hw, hh, Int.zero_tdiv, Int.tdiv_zero]

/-- C6 (counterexample): on the 144×168 rectangular display, marker 1
(30°) is NOT placed by the spec's rectangular policy: the code places it
at the inscribed-ellipse point (107, 13), while the rectangular policy
would give (119, 2). -/
theorem rect_policy_refuted :
    marker_outer (calculate_dimensions ⟨0, 0, 144, 168⟩) 1 ≠
      rect_policy_point (calculate_dimensions ⟨0, 0, 144, 168⟩).center
        (degrees_to_trig_angle (marker_angle_degrees 1))
        (calculate_dimensions ⟨0, 0, 144, 168⟩).w_radius
        (calculate_dimensions ⟨0, 0, 144, 168⟩).h_radius := by
  decide

/-- C6 (amended): marker placement always uses the elliptical form
`get_point_on_ellipse`, regardless of display shape — the source contains
no rectangular placement policy and no display-shape branch, so every
frame's marker line for index `i` runs between the points of the
inscribed ellipse. -/
theorem markers_always_elliptical (stale : Geometry) (b : GRect) (t : Tm)
    (i : Nat) (hi : i < 12) :
    DrawEvent.line (marker_outer (calculate_dimensions b) i)
        (marker_inner (calculate_dimensions b) i) (marker_width i)
        Color.white
      ∈ (update_proc stale b t).2 ∧
    marker_outer (calculate_dimensions b) i =
      get_point_on_ellipse (calculate_dimensions b).center
        (degrees_to_trig_angle (marker_angle_degrees i))
        (calculate_dimensions b).w_radius
        (calculate_dimensions b).h_radius := by
  refine ⟨?_, rfl⟩
  show DrawEvent.line (marker_outer (calculate_dimensions b) i)
        (marker_inner (calculate_dimensions b) i) (marker_width i)
        Color.white
      ∈ draw_clock_face (calculate_dimensions b) ::
          (draw_hour_markers (calculate_dimensions b) ++
            draw_clock_hands (calculate_dimensions b) t)
  refine List.mem_cons_of_mem _ (List.mem_append_left _ ?_)
  unfold draw_hour_markers
  exact List.mem_flatMap.mpr
    ⟨i, List.mem_range.mpr hi, List.mem_cons_self _ _⟩

/-- C6 witness: marker 1 of the 144×168 frame at 10:09:30. -/
theorem markers_always_elliptical_witness :
    (1 : Nat) < 12 ∧
    DrawEvent.line (marker_outer (calculate_dimensions ⟨0, 0, 144, 168⟩) 1)
        (marker_inner (calculate_dimensions ⟨0, 0, 144, 168⟩) 1)
        (marker_width 1) Color.white
      ∈ (update_proc ⟨⟨0, 0⟩, 0, 0, 0⟩ ⟨0, 0, 144, 168⟩ ⟨10, 9, 30⟩).2 :=
  ⟨by decide,
    (markers_always_elliptical ⟨⟨0, 0⟩, 0, 0, 0⟩ ⟨0, 0, 144, 168⟩
      ⟨10, 9, 30⟩ 1 (by decide)).1⟩

/-- C7: for every bounds with nonnegative size, the derived geometry has
center at the bounds midpoint, each axis radius equal to half the
corresponding dimension minus the border inset (1 percent of the half
dimension, rounded up), and overall radius the minimum of the two axis
radii. -/
theorem geometry_derivation (b : GRect) (hw : 0 ≤ b.w) (hh : 0 ≤ b.h) :
    (calculate_dimensions b).center = ⟨b.x + b.w / 2, b.y + b.h / 2⟩ ∧
    (calculate_dimensions b).w_radius =
      b.w / 2 - border_inset (b.w / 2) ∧
    (calculate_dimensions b).h_radius =
      b.h / 2 - border_inset (b.h / 2) ∧
    (calculate_dimensions b).radius =
      min (calculate_dimensions b).w_radius
        (calculate_dimensions b).h_radius := by
  have ew : Int.tdiv b.w 2 = b.w / 2 := Int.tdiv_eq_ediv hw (by omega)
  have eh : Int.tdiv b.h 2 = b.h / 2 := Int.tdiv_eq_ediv hh (by omega)
  have ew2 : Int.tdiv (b.w / 2 * 99) 100 = b.w / 2 * 99 / 100 :=
    Int.tdiv_eq_ediv (by positivity) (by omega)
  have eh2 : Int.tdiv (b.h / 2 * 99) 100 = b.h / 2 * 99 / 100 :=
    Int.tdiv_eq_ediv (by positivity) (by omega)
  unfold calculate_dimensions border_inset
  dsimp only
  rw [ew, eh, ew2, eh2]
  refine ⟨rfl, by omega, by omega, ?_⟩
  rw [min_def]
  split <;> split <;> omega

/-- C7 witness at bounds 144×168: center (72, 84), radii 71 and 83,
overall radius 71. -/
theorem geometry_derivation_witness :
    (0 : Int) ≤ 144 ∧
    (calculate_dimensions ⟨0, 0, 144, 168⟩).center = ⟨0 + 144 / 2, 0 + 168 / 2⟩ :=
  ⟨by decide,
    (geometry_derivation ⟨0, 0, 144, 168⟩ (by decide) (by decide)).1⟩

/-- C8: every frame first recomputes the geometry from the current bounds
(the stale global geometry is never consulted), then draws the face and
the markers with that geometry, and finally draws the three hands — all
derived from the single time sample `t` — in back-to-front order hour,
minute, second, with the filled center dot on top. -/
theorem frame_draw_order (stale : Geometry) (b : GRect) (t : Tm) :
    update_proc stale b t =
      (calculate_dimensions b,
        draw_clock_face (calculate_dimensions b) ::
          (draw_hour_markers (calculate_dimensions b) ++
            [ draw_hand (calculate_dimensions b)
                (degrees_to_trig_angle (hour_degrees t))
                (hour_hand_length (calculate_dimensions b).radius) 5 .white
            , draw_hand (calculate_dimensions b)
                (degrees_to_trig_angle (minute_degrees t))
                (minute_hand_length (calculate_dimensions b).radius) 3 .white
            , draw_hand (calculate_dimensions b)
                (degrees_to_trig_angle (second_degrees t))
                (second_hand_length (calculate_dimensions b).radius) 1 .red
            , .dot (calculate_dimensions b).center 5 ])) :=
  rfl

/-- C9: the frame is deterministic in bounds and time: two runs from
arbitrary (even different) stale global geometries produce identical
geometry and identical draw calls, and re-running the frame from its own
resulting geometry reproduces it exactly. -/
theorem frame_deterministic (s1 s2 : Geometry) (b : GRect) (t : Tm) :
    update_proc s1 b t = update_proc s2 b t ∧
    update_proc (update_proc s1 b t).1 b t = update_proc s1 b t :=
  ⟨rfl, rfl⟩

/-- C10: for every marker index below 12, the decimal representation of
the display hour is at most 2 characters, so the 3-byte `snprintf` buffer
never truncates: the drawn numeral equals the full display hour. -/
theorem numeral_fits_buffer (i : Nat) (hi : i < 12) :
    (Nat.repr (get_display_hour i)).length ≤ 2 ∧
    number_buffer i = Nat.repr (get_display_hour i) := by
  revert hi
  revert i
  decide

/-- C10 witness at index 0 (display hour 12, the widest numeral). -/
theorem numeral_fits_buffer_witness :
    (0 : Nat) < 12 ∧ number_buffer 0 = Nat.repr (get_display_hour 0) :=
  ⟨by decide, (numeral_fits_buffer 0 (by decide)).2⟩

end SimpleWatchface
